import Mathlib

set_option maxRecDepth 100000

/-!
Verification of the LS-8 style virtual machine in `cpu.py`.

The embedding mirrors the Python source: the CPU state holds `ram` (a list of
256 Python integers), `reg` (a list of 8 Python integers, where by convention
index 7 — Python `reg[-1]` — is the stack pointer and index 6 — Python
`reg[-2]` — is the flags register), the program counter, the running flag and
the list of lines printed so far.  Python list indexing (negative indices count
from the end; an index out of `[-len, len)` raises `IndexError`) is modelled by
`pyIdx` / `pyGet` / `pySet`.  Handlers return `Except`: `Except.error` carries
the way the interpreter dies (`indexError` for an uncaught Python `IndexError`,
`sysExit c` for `sys.exit(c)`) together with the state at that moment.
-/

namespace LS8

/-- Outcome of the three-way comparison in `handle_cmp` (`'EQ' | 'GT' | 'LT'`). -/
inductive CmpRes where
  | EQ
  | GT
  | LT
deriving DecidableEq, Repr

/-- One line printed to standard output, kept structured rather than as text. -/
inductive OutEvent where
  | traceLine (pc op b1 b2 : Int) (regs : List Int)
  | invalidCmd (pc val : Int)
  | haltMsg
  | printVal (v : Int)
  | cmpDiag (v1 v2 : Int) (res : Option CmpRes)
  | unknownCmd (cmd : Int)
deriving DecidableEq, Repr

/-- The CPU state: `ram`, `reg`, `pc`, `running` of `CPU.__init__`, plus the
output printed so far. -/
structure CPUState where
  ram : List Int
  reg : List Int
  pc : Int
  running : Bool
  output : List OutEvent
deriving DecidableEq, Repr

/-- How a run dies: an uncaught Python `IndexError`, or `sys.exit(code)`. -/
inductive CrashKind where
  | indexError
  | sysExit (code : Nat)
deriving DecidableEq, Repr

/-- Result of a handler: either the next state, or a crash with the state at
the moment of the crash. -/
abbrev PyRes (α : Type) := Except (CrashKind × CPUState) α

/-- Python list-index resolution: a nonnegative index must be `< len`, a
negative index counts from the end and must be `≥ -len`. -/
def pyIdx (len : Nat) (i : Int) : Option Nat :=
  if 0 ≤ i then
    if i < (len : Int) then some i.toNat else none
  else
    if 0 ≤ i + (len : Int) then some (i + (len : Int)).toNat else none

/-- Python `l[i]` as a read. -/
def pyGet (l : List Int) (i : Int) : Option Int :=
  (pyIdx l.length i).bind (fun n => l[n]?)

/-- Python `l[i] = v`. -/
def pySet (l : List Int) (i : Int) (v : Int) : Option (List Int) :=
  (pyIdx l.length i).map (fun n => l.set n v)

/-- Opcode `HLT = 0b00000001`. -/
def HLT : Int := 1
/-- Opcode `LDI = 0b10000010`. -/
def LDI : Int := 130
/-- Opcode `PRN = 0b01000111`. -/
def PRN : Int := 71
/-- Opcode `MUL = 0b10100010`. -/
def MUL : Int := 162
/-- Opcode `ADD = 0b10100000`. -/
def ADD : Int := 160
/-- Opcode `PUSH = 0b01000101`. -/
def PUSH : Int := 69
/-- Opcode `POP = 0b01000110`. -/
def POP : Int := 70
/-- Opcode `CALL = 0b01010000`. -/
def CALL : Int := 80
/-- Opcode `RET = 0b00010001`. -/
def RET : Int := 17
/-- Opcode `CMP = 0b10100111`. -/
def CMP : Int := 167
/-- Opcode `JMP = 0b01010100`. -/
def JMP : Int := 84
/-- Opcode `JEQ = 0b01010101`. -/
def JEQ : Int := 85
/-- Opcode `JNE = 0b01010110`. -/
def JNE : Int := 86

/-- The keys of the opcode table built by `_init_cmds`. -/
def cmdKeys : List Int := [HLT, LDI, PRN, MUL, ADD, PUSH, POP, CALL, RET, CMP, JMP, JEQ, JNE]

/-- Membership test `command in self.cmds`. -/
def inCmds (c : Int) : Bool := cmdKeys.contains c

/-- Source `ram_read(self, register): return self.ram[register]`. -/
def ram_read (s : CPUState) (register : Int) : PyRes Int :=
  match pyGet s.ram register with
  | some v => .ok v
  | none => .error (.indexError, s)

/-- Source `ram_write(self, register, value): self.ram[register] = value`. -/
def ram_write (s : CPUState) (register value : Int) : PyRes CPUState :=
  match pySet s.ram register value with
  | some ram2 => .ok { s with ram := ram2 }
  | none => .error (.indexError, s)

/-- Read of `self.reg[i]` (Python list indexing on the register list). -/
def reg_get (s : CPUState) (i : Int) : PyRes Int :=
  match pyGet s.reg i with
  | some v => .ok v
  | none => .error (.indexError, s)

/-- Write of `self.reg[i] = v`. -/
def reg_set (s : CPUState) (i v : Int) : PyRes CPUState :=
  match pySet s.reg i v with
  | some reg2 => .ok { s with reg := reg2 }
  | none => .error (.indexError, s)

/-- Source `get_stack_pointer(self): return self.reg[-1]`. -/
def get_stack_pointer (s : CPUState) : PyRes Int :=
  reg_get s (-1)

/-- Source `inc_stack_pointer(self): self.reg[-1] += 1`. -/
def inc_stack_pointer (s : CPUState) : PyRes CPUState := do
  let sp ← get_stack_pointer s
  reg_set s (-1) (sp + 1)

/-- Source `dec_stack_pointer(self): self.reg[-1] -= 1`. -/
def dec_stack_pointer (s : CPUState) : PyRes CPUState := do
  let sp ← get_stack_pointer s
  reg_set s (-1) (sp - 1)

/-- Source `get_alu_regs(self)`: the two operand bytes at `pc+1` and `pc+2`. -/
def get_alu_regs (s : CPUState) : PyRes (Int × Int) := do
  let reg_a ← ram_read s (s.pc + 1)
  let reg_b ← ram_read s (s.pc + 2)
  pure (reg_a, reg_b)

/-- Source `handle_mul(self)`: `self.reg[reg_a] *= self.reg[reg_b]; self.pc += 3`.
The source applies no modular reduction: Python integers are unbounded. -/
def handle_mul (s : CPUState) : PyRes CPUState := do
  let (reg_a, reg_b) ← get_alu_regs s
  let va ← reg_get s reg_a
  let vb ← reg_get s reg_b
  let s ← reg_set s reg_a (va * vb)
  pure { s with pc := s.pc + 3 }

/-- Source `handle_add(self)`: `self.reg[reg_a] += self.reg[reg_b]; self.pc += 3`.
The source applies no modular reduction: Python integers are unbounded. -/
def handle_add (s : CPUState) : PyRes CPUState := do
  let (reg_a, reg_b) ← get_alu_regs s
  let va ← reg_get s reg_a
  let vb ← reg_get s reg_b
  let s ← reg_set s reg_a (va + vb)
  pure { s with pc := s.pc + 3 }

/-- Source `trace(self)`: if the byte at `pc` is not an opcode-table key, print the
INVALID COMMAND report and stop the loop; otherwise print the trace line with
`pc`, the opcode byte, the two following bytes and all 8 registers. -/
def trace (s : CPUState) : PyRes CPUState := do
  let c ← ram_read s s.pc
  if inCmds c then do
    let op ← ram_read s s.pc
    let b1 ← ram_read s (s.pc + 1)
    let b2 ← ram_read s (s.pc + 2)
    pure { s with output := s.output ++ [.traceLine s.pc op b1 b2 s.reg] }
  else
    pure { s with output := s.output ++ [.invalidCmd s.pc c], running := false }

/-- Source `handle_halt(self)`: print the halt message, clear `running`, `pc += 1`. -/
def handle_halt (s : CPUState) : PyRes CPUState :=
  .ok { s with output := s.output ++ [.haltMsg], running := false, pc := s.pc + 1 }

/-- Source `ldi(self)`: `self.reg[register] = value; self.pc += 3` where `register`
and `value` are the bytes at `pc+1` and `pc+2`.  The value is stored as-is. -/
def ldi (s : CPUState) : PyRes CPUState := do
  let register ← ram_read s (s.pc + 1)
  let value ← ram_read s (s.pc + 2)
  let s ← reg_set s register value
  pure { s with pc := s.pc + 3 }

/-- Source `handle_print(self)`: print `self.reg[register]`, `pc += 2`. -/
def handle_print (s : CPUState) : PyRes CPUState := do
  let register ← ram_read s (s.pc + 1)
  let v ← reg_get s register
  pure { s with output := s.output ++ [.printVal v], pc := s.pc + 2 }

/-- Source `_stack_push(self, value)`: decrement the stack pointer, then write the
value at the new stack-pointer address. -/
def _stack_push (s : CPUState) (value : Int) : PyRes CPUState := do
  let s ← dec_stack_pointer s
  let sp ← get_stack_pointer s
  ram_write s sp value

/-- Source `_set_equal_flag(self, status)`: `reg[-2] ← 1 / 2 / 4` for EQ / GT / LT;
`None` leaves the flags register untouched. -/
def _set_equal_flag (s : CPUState) (status : Option CmpRes) : PyRes CPUState :=
  match status with
  | some .EQ => reg_set s (-2) 1
  | some .GT => reg_set s (-2) 2
  | some .LT => reg_set s (-2) 4
  | none => .ok s

/-- Source `_stack_pop(self)`: read the value at the current stack-pointer address,
then increment the stack pointer. -/
def _stack_pop (s : CPUState) : PyRes (Int × CPUState) := do
  let sp ← get_stack_pointer s
  let val ← ram_read s sp
  let s ← inc_stack_pointer s
  pure (val, s)

/-- Source `handle_pop(self)`: pop into `reg[register]`, `pc += 2`. -/
def handle_pop (s : CPUState) : PyRes CPUState := do
  let register ← ram_read s (s.pc + 1)
  let (val, s) ← _stack_pop s
  let s ← reg_set s register val
  pure { s with pc := s.pc + 2 }

/-- Source `handle_push(self)`: push `reg[register]`, `pc += 2`. -/
def handle_push (s : CPUState) : PyRes CPUState := do
  let register ← ram_read s (s.pc + 1)
  let value ← reg_get s register
  let s ← _stack_push s value
  pure { s with pc := s.pc + 2 }

/-- Source `handle_call(self)`: push `pc + 2` and set `pc` to the value held in the
register named by the byte at `pc + 1`. -/
def handle_call (s : CPUState) : PyRes CPUState := do
  let next_instruction := s.pc + 2
  let subroutine ← ram_read s (s.pc + 1)
  let s ← _stack_push s next_instruction
  let target ← reg_get s subroutine
  pure { s with pc := target }

/-- Source `handle_ret(self)`: pop the return address into `pc`. -/
def handle_ret (s : CPUState) : PyRes CPUState := do
  let (next_instruction, s) ← _stack_pop s
  pure { s with pc := next_instruction }

/-- Source `is_equal_flag(self): return self.reg[-2] == 1`. -/
def is_equal_flag (s : CPUState) : PyRes Bool := do
  let f ← reg_get s (-2)
  pure (f == 1)

/-- Source `handle_cmp(self)`: three-way compare of the two named registers, print
the diagnostic line, store the flag, `pc += 3`. -/
def handle_cmp (s : CPUState) : PyRes CPUState := do
  let ra ← ram_read s (s.pc + 1)
  let first_value ← reg_get s ra
  let rb ← ram_read s (s.pc + 2)
  let second_value ← reg_get s rb
  let cmp_result : Option CmpRes :=
    if first_value == second_value then some .EQ
    else if second_value < first_value then some .GT
    else if first_value < second_value then some .LT
    else none
  let s := { s with output := s.output ++ [.cmpDiag first_value second_value cmp_result] }
  let s ← _set_equal_flag s cmp_result
  pure { s with pc := s.pc + 3 }

/-- Source `handle_jmp(self)`: `pc ← reg[register]` (indirect jump). -/
def handle_jmp (s : CPUState) : PyRes CPUState := do
  let register ← ram_read s (s.pc + 1)
  let target ← reg_get s register
  pure { s with pc := target }

/-- Source `handle_jne(self)`: jump unless the equal flag is set, else `pc += 2`. -/
def handle_jne (s : CPUState) : PyRes CPUState := do
  let b ← is_equal_flag s
  if b then pure { s with pc := s.pc + 2 } else handle_jmp s

/-- Source `handle_jeq(self)`: jump if the equal flag is set, else `pc += 2`. -/
def handle_jeq (s : CPUState) : PyRes CPUState := do
  let b ← is_equal_flag s
  if b then handle_jmp s else pure { s with pc := s.pc + 2 }

/-- Source `handle_cmd(self, command)`: unknown commands print the UNKNOWN COMMAND
report and `sys.exit(1)`; known commands dispatch to their handler. -/
def handle_cmd (s : CPUState) (command : Int) : PyRes CPUState :=
  if inCmds command then
    if command = HLT then handle_halt s
    else if command = LDI then ldi s
    else if command = PRN then handle_print s
    else if command = MUL then handle_mul s
    else if command = ADD then handle_add s
    else if command = PUSH then handle_push s
    else if command = POP then handle_pop s
    else if command = CALL then handle_call s
    else if command = RET then handle_ret s
    else if command = CMP then handle_cmp s
    else if command = JMP then handle_jmp s
    else if command = JEQ then handle_jeq s
    else handle_jne s
  else
    .error (.sysExit 1, { s with output := s.output ++ [.unknownCmd command] })

/-- One iteration of the `run` loop body: fetch `self.ram[self.pc]`, call
`trace`, then `handle_cmd`. -/
def step (s : CPUState) : PyRes CPUState := do
  let command ← ram_read s s.pc
  let s ← trace s
  handle_cmd s command

/-- The `while self.running` loop, with fuel bounding the number of
iterations. -/
def runFuel : Nat → CPUState → PyRes CPUState
  | 0, s => .ok s
  | n + 1, s =>
    if s.running then do
      let s ← step s
      runFuel n s
    else .ok s

/-- Source `run(self)`: set `running` and enter the loop. -/
def run (fuel : Nat) (s : CPUState) : PyRes CPUState :=
  runFuel fuel { s with running := true }

/-- The state built by `CPU.__init__`: 256 zeroed ram cells, 8 registers with
`reg[-1] = 255` (stack pointer) and `reg[-2] = 0` (flags), `pc = 0`. -/
def initState : CPUState :=
  { ram := List.replicate 256 0
  , reg := (List.replicate 8 0).set 7 255
  , pc := 0
  , running := false
  , output := [] }

/-! ### Basic lemmas about the Python list-indexing model -/

@[simp] lemma pure_eq_ok {α : Type} (a : α) : (pure a : PyRes α) = Except.ok a := rfl

@[simp] lemma ok_bind {α β : Type} (a : α) (f : α → PyRes β) :
    (Except.ok a : PyRes α) >>= f = f a := rfl

@[simp] lemma error_bind {α β : Type} (e : CrashKind × CPUState) (f : α → PyRes β) :
    (Except.error e : PyRes α) >>= f = (Except.error e : PyRes β) := rfl

lemma pyIdx_lt {len : Nat} {i : Int} {n : Nat} (h : pyIdx len i = some n) : n < len := by
  unfold pyIdx at h
  split_ifs at h with h1 h2 h3 <;> injection h with h <;> omega

lemma pySet_some {l l2 : List Int} {i v : Int} (h : pySet l i v = some l2) :
    ∃ n, pyIdx l.length i = some n ∧ l2 = l.set n v := by
  unfold pySet at h
  cases hn : pyIdx l.length i with
  | none => rw [hn] at h; cases h
  | some n =>
    rw [hn] at h
    exact ⟨n, rfl, (Option.some_inj.mp h).symm⟩

lemma pySet_length {l l2 : List Int} {i v : Int} (h : pySet l i v = some l2) :
    l2.length = l.length := by
  obtain ⟨n, -, rfl⟩ := pySet_some h
  simp

lemma pySet_of_pyIdx {l : List Int} {i : Int} {n : Nat}
    (hn : pyIdx l.length i = some n) (v : Int) :
    pySet l i v = some (l.set n v) := by
  unfold pySet
  rw [hn]
  rfl

lemma pyGet_set_of_pyIdx {l : List Int} {i : Int} {n : Nat}
    (hn : pyIdx l.length i = some n) (v : Int) :
    pyGet (l.set n v) i = some v := by
  have hlt : n < l.length := pyIdx_lt hn
  unfold pyGet
  rw [List.length_set, hn]
  simp [List.getElem?_set_eq_of_lt _ hlt]

lemma pyGet_pySet_self {l l2 : List Int} {i v : Int} (h : pySet l i v = some l2) :
    pyGet l2 i = some v := by
  obtain ⟨n, hn, rfl⟩ := pySet_some h
  exact pyGet_set_of_pyIdx hn v

lemma pyGet_some_of_pyIdx {l : List Int} {i : Int} {n : Nat}
    (hn : pyIdx l.length i = some n) :
    pyGet l i = l[n]? := by
  unfold pyGet
  rw [hn]
  rfl

lemma pySet_none_iff {l : List Int} {i v : Int} :
    pySet l i v = none ↔ pyIdx l.length i = none := by
  unfold pySet
  cases hn : pyIdx l.length i <;> simp

lemma pyIdx_none_iff {len : Nat} {i : Int} :
    pyIdx len i = none ↔ ¬(-(len : Int) ≤ i ∧ i < len) := by
  unfold pyIdx
  split_ifs with h1 h2 h3 <;> simp <;> omega

lemma pyGet_none_iff {l : List Int} {i : Int} :
    pyGet l i = none ↔ ¬(-(l.length : Int) ≤ i ∧ i < l.length) := by
  rw [← pyIdx_none_iff]
  unfold pyGet
  cases hn : pyIdx l.length i with
  | none => simp
  | some n =>
    have hlt : n < l.length := pyIdx_lt hn
    simp [List.getElem?_eq_getElem hlt]

/-! ### C1: arithmetic does not wrap modulo 256 -/

/-- A state about to execute `ADD 0 1` with `reg[0] = 250`, `reg[1] = 10`. -/
def addCexState : CPUState :=
  { ram := [160, 0, 1]
  , reg := [250, 10, 0, 0, 0, 0, 0, 255]
  , pc := 0
  , running := true
  , output := [] }

/-- C1 (counterexample): with `reg[0] = 250` and `reg[1] = 10`, `handle_add`
stores `260` into register 0 — not `(250 + 10) % 256 = 4`, and not a value in
`[0, 256)`.  The claim that ADD wraps modulo 256 is false on the code. -/
theorem add_wrap_counterexample :
    (match handle_add addCexState with
      | .ok s => pyGet s.reg 0
      | .error _ => none) = some 260
    ∧ (260 : Int) ≠ (250 + 10) % 256
    ∧ ¬((260 : Int) < 256) := by
  decide

/-- C1 (amended): for every execution of ADD or MULTIPLY naming registers
`ra` and `rb` whose reads and write succeed, the value stored back into
register `ra` is the exact integer sum (resp. product) of the old values,
with no modular reduction, and the program counter advances by 3. -/
theorem add_mul_exact (s : CPUState) (ra rb va vb : Int) (rega regm : List Int)
    (h1 : pyGet s.ram (s.pc + 1) = some ra) (h2 : pyGet s.ram (s.pc + 2) = some rb)
    (hva : pyGet s.reg ra = some va) (hvb : pyGet s.reg rb = some vb)
    (hsa : pySet s.reg ra (va + vb) = some rega)
    (hsm : pySet s.reg ra (va * vb) = some regm) :
    handle_add s = .ok { s with reg := rega, pc := s.pc + 3 }
    ∧ pyGet rega ra = some (va + vb)
    ∧ handle_mul s = .ok { s with reg := regm, pc := s.pc + 3 }
    ∧ pyGet regm ra = some (va * vb) := by
  refine ⟨?_, pyGet_pySet_self hsa, ?_, pyGet_pySet_self hsm⟩ <;>
    simp [handle_add, handle_mul, get_alu_regs, ram_read, reg_get, reg_set,
      h1, h2, hva, hvb, hsa, hsm]

/-- Witness for C1's amended theorem at the concrete state `addCexState`:
ADD stores exactly `260` and MULTIPLY exactly `2500`. -/
theorem add_mul_exact_witness :
    pyGet (addCexState.reg.set 0 260) 0 = some 260
    ∧ pyGet (addCexState.reg.set 0 2500) 0 = some 2500 := by
  have h := add_mul_exact addCexState 0 1 250 10
    (addCexState.reg.set 0 260) (addCexState.reg.set 0 2500)
    (by decide) (by decide) (by decide) (by decide) (by decide) (by decide)
  exact ⟨h.2.1, h.2.2.2⟩

/-! ### C2: negative addresses are silently aliased, not rejected -/

lemma pyIdx_neg (len : Nat) (i : Int) (h1 : -(len : Int) ≤ i) (h2 : i < 0) :
    pyIdx len i = pyIdx len (i + len) := by
  unfold pyIdx
  split_ifs <;> first | rfl | omega

/-- A freshly zeroed state whose stack pointer `reg[-1]` is `0`, so the next
push decrements it to `-1`. -/
def pushUnderflowState : CPUState :=
  { ram := List.replicate 256 0
  , reg := List.replicate 8 0
  , pc := 0
  , running := true
  , output := [] }

/-- C2 (counterexample): a stack push taken with stack pointer `0` decrements
the pointer to `-1` and then, far from failing with an address error, silently
writes the value into memory cell 255 (Python negative indexing): the push
succeeds and the run is not terminated. -/
theorem push_below_zero_counterexample :
    (match _stack_push pushUnderflowState 42 with
      | .ok s => some (pyGet s.ram 255, pyGet s.reg (-1))
      | .error _ => none) = some (some 42, some (-1)) := by
  decide

/-- C2 (amended): a memory read or write fails (with the `IndexError` that
terminates the run) exactly when the address lies outside `[-256, 256)`; an
address in `[-256, 0)` — such as the stack pointer after decrementing below
0 — silently accesses the cell at `address + 256` instead of failing.  A read
at an address ≥ 256 — such as the stack pointer after incrementing above
255 — does fail. -/
theorem mem_error_iff_outside_pyrange (s : CPUState) (addr v : Int)
    (h : s.ram.length = 256) :
    ((∃ e, ram_read s addr = .error e) ↔ (addr < -256 ∨ 256 ≤ addr))
    ∧ ((∃ e, ram_write s addr v = .error e) ↔ (addr < -256 ∨ 256 ≤ addr))
    ∧ (-256 ≤ addr → addr < 0 → ram_read s addr = ram_read s (addr + 256)) := by
  have hrange : pyGet s.ram addr = none ↔ (addr < -256 ∨ 256 ≤ addr) := by
    rw [pyGet_none_iff, h]
    constructor <;> intro hx <;> omega
  refine ⟨?_, ?_, ?_⟩
  · unfold ram_read
    cases hg : pyGet s.ram addr <;> rw [hg] at hrange <;> simp_all
  · have hwrange : pySet s.ram addr v = none ↔ (addr < -256 ∨ 256 ≤ addr) := by
      rw [pySet_none_iff, pyIdx_none_iff, h]
      constructor <;> intro hx <;> omega
    unfold ram_write
    cases hg : pySet s.ram addr v <;> rw [hg] at hwrange <;> simp_all
  · intro h1 h2
    unfold ram_read pyGet
    rw [h, pyIdx_neg 256 addr (by omega) h2]
    norm_num

/-- Witness for C2's amended theorem: at `pushUnderflowState`, a read at
address 300 fails, and a read at address `-1` is a read of cell 255. -/
theorem mem_error_iff_witness :
    (∃ e, ram_read pushUnderflowState 300 = .error e)
    ∧ ram_read pushUnderflowState (-1) = ram_read pushUnderflowState 255 := by
  have hlen : pushUnderflowState.ram.length = 256 := by
    simp [pushUnderflowState]
  have h1 := mem_error_iff_outside_pyrange pushUnderflowState 300 0 hlen
  have h2 := mem_error_iff_outside_pyrange pushUnderflowState (-1) 0 hlen
  refine ⟨h1.1.mpr (by decide), ?_⟩
  have := h2.2.2 (by decide) (by decide)
  simpa using this

/-! ### C3: an unknown opcode reports and terminates with exit status 1 -/

/-- C3: whenever the byte fetched at the program counter is not a key of the
opcode table, the dispatch loop — however much fuel remains — reports the
offending byte (the INVALID COMMAND report from `trace` and the UNKNOWN
COMMAND report from `handle_cmd`) and terminates immediately via
`sys.exit(1)`: the result is the `sysExit 1` crash, so no further instruction
is ever executed and the exit status is non-zero. -/
theorem unknown_opcode_exits (s : CPUState) (c : Int) (n : Nat)
    (hrun : s.running = true) (hc : pyGet s.ram s.pc = some c)
    (hnot : inCmds c = false) :
    runFuel (n + 1) s =
      .error (.sysExit 1,
        { s with running := false,
                 output := s.output ++ [.invalidCmd s.pc c, .unknownCmd c] }) := by
  simp [runFuel, hrun, step, trace, handle_cmd, ram_read, hc, hnot]

/-- A state whose current byte `255` is not an opcode. -/
def unknownOpState : CPUState :=
  { ram := [255]
  , reg := List.replicate 8 0
  , pc := 0
  , running := true
  , output := [] }

/-- Witness for C3 at the concrete state `unknownOpState`. -/
theorem unknown_opcode_exits_witness :
    runFuel 1 unknownOpState =
      .error (.sysExit 1,
        { unknownOpState with
            running := false
            output := [.invalidCmd 0 255, .unknownCmd 255] }) := by
  have h := unknown_opcode_exits unknownOpState 255 0 rfl (by decide) (by decide)
  simpa using h

/-! ### C5: push followed by pop restores value and stack pointer -/

/-- C5: from any state whose stack-pointer read, decrement and memory write
succeed, `_stack_push v` followed by `_stack_pop` returns exactly `v` and
leaves the stack-pointer register `reg[-1]` equal to its value before the
push. -/
theorem push_pop_round_trip (s : CPUState) (v sp : Int) (n : Nat)
    (reg2 ram2 : List Int)
    (hsp : pyGet s.reg (-1) = some sp)
    (hn : pyIdx s.reg.length (-1) = some n)
    (hdec : pySet s.reg (-1) (sp - 1) = some reg2)
    (hw : pySet s.ram (sp - 1) v = some ram2) :
    _stack_push s v = .ok { s with reg := reg2, ram := ram2 }
    ∧ _stack_pop { s with reg := reg2, ram := ram2 } =
        .ok (v, { s with reg := reg2.set n sp, ram := ram2 })
    ∧ pyGet (reg2.set n sp) (-1) = some sp := by
  have h1 : pyGet reg2 (-1) = some (sp - 1) := pyGet_pySet_self hdec
  have hrv : pyGet ram2 (sp - 1) = some v := pyGet_pySet_self hw
  have hlen2 : reg2.length = s.reg.length := pySet_length hdec
  have hn2 : pyIdx reg2.length (-1) = some n := by rw [hlen2]; exact hn
  have harith : sp - 1 + 1 = sp := by ring
  have hset2 : pySet reg2 (-1) sp = some (reg2.set n sp) := pySet_of_pyIdx hn2 sp
  refine ⟨?_, ?_, pyGet_set_of_pyIdx hn2 sp⟩
  · simp [_stack_push, dec_stack_pointer, get_stack_pointer, reg_get, reg_set,
      ram_write, hsp, hdec, h1, hw]
  · simp [_stack_pop, get_stack_pointer, inc_stack_pointer, reg_get, reg_set,
      ram_read, h1, hrv, harith, hset2]

/-- Witness for C5 at `initState` (stack pointer 255), pushing the value 42. -/
theorem push_pop_round_trip_witness :
    _stack_push initState 42 =
      .ok { initState with reg := initState.reg.set 7 254
                         , ram := initState.ram.set 254 42 }
    ∧ _stack_pop { initState with reg := initState.reg.set 7 254
                                , ram := initState.ram.set 254 42 } =
        .ok (42, { initState with reg := (initState.reg.set 7 254).set 7 255
                                , ram := initState.ram.set 254 42 })
    ∧ pyGet ((initState.reg.set 7 254).set 7 255) (-1) = some 255 :=
  push_pop_round_trip initState 42 255 7 (initState.reg.set 7 254)
    (initState.ram.set 254 42) (by decide) (by decide) (by decide) (by decide)

/-! ### C4: CALL pushes the return address and jumps through the register;
RETURN comes back to it -/

/-- C4: executing CALL at program counter `p` (when the operand read, the
stack write and the register reads succeed) pushes `p + 2` onto the stack and
sets the program counter to the value held in the register named by the
operand byte at `p + 1` — an indirect jump through the register.  A RETURN
executed next, with the stack undisturbed, pops that value: the program
counter becomes `p + 2` again and the stack pointer returns to its value
before the CALL. -/
theorem call_ret_round_trip (s : CPUState) (subroutine sp target : Int)
    (n : Nat) (reg2 ram2 : List Int)
    (hsub : pyGet s.ram (s.pc + 1) = some subroutine)
    (hsp : pyGet s.reg (-1) = some sp)
    (hn : pyIdx s.reg.length (-1) = some n)
    (hdec : pySet s.reg (-1) (sp - 1) = some reg2)
    (hw : pySet s.ram (sp - 1) (s.pc + 2) = some ram2)
    (htar : pyGet reg2 subroutine = some target) :
    handle_call s = .ok { s with reg := reg2, ram := ram2, pc := target }
    ∧ pyGet ram2 (sp - 1) = some (s.pc + 2)
    ∧ handle_ret { s with reg := reg2, ram := ram2, pc := target } =
        .ok { s with reg := reg2.set n sp, ram := ram2, pc := s.pc + 2 }
    ∧ pyGet (reg2.set n sp) (-1) = some sp := by
  have h1 : pyGet reg2 (-1) = some (sp - 1) := pyGet_pySet_self hdec
  have hrv : pyGet ram2 (sp - 1) = some (s.pc + 2) := pyGet_pySet_self hw
  have hlen2 : reg2.length = s.reg.length := pySet_length hdec
  have hn2 : pyIdx reg2.length (-1) = some n := by rw [hlen2]; exact hn
  have harith : sp - 1 + 1 = sp := by ring
  have hset2 : pySet reg2 (-1) sp = some (reg2.set n sp) := pySet_of_pyIdx hn2 sp
  refine ⟨?_, hrv, ?_, pyGet_set_of_pyIdx hn2 sp⟩
  · simp [handle_call, _stack_push, dec_stack_pointer, get_stack_pointer,
      reg_get, reg_set, ram_write, ram_read, hsub, hsp, hdec, h1, hw, htar]
  · simp [handle_ret, _stack_pop, get_stack_pointer, inc_stack_pointer,
      reg_get, reg_set, ram_read, h1, hrv, harith, hset2]

/-- A state about to execute `CALL 2` with `reg[2] = 100` at `pc = 0`. -/
def callState : CPUState :=
  { ram := [80, 2] ++ List.replicate 254 0
  , reg := [0, 0, 100, 0, 0, 0, 0, 255]
  , pc := 0
  , running := true
  , output := [] }

/-- Witness for C4 at `callState`: CALL jumps to 100 (held in register 2),
pushing the return address 2; RETURN comes back to `pc = 2` with the stack
pointer restored to 255. -/
theorem call_ret_round_trip_witness :
    handle_call callState =
      .ok { callState with reg := callState.reg.set 7 254
                         , ram := callState.ram.set 254 2
                         , pc := 100 }
    ∧ pyGet (callState.ram.set 254 2) 254 = some 2
    ∧ handle_ret { callState with reg := callState.reg.set 7 254
                                , ram := callState.ram.set 254 2
                                , pc := 100 } =
        .ok { callState with reg := (callState.reg.set 7 254).set 7 255
                           , ram := callState.ram.set 254 2
                           , pc := 2 }
    ∧ pyGet ((callState.reg.set 7 254).set 7 255) (-1) = some 255 :=
  call_ret_round_trip callState 2 255 100 7 (callState.reg.set 7 254)
    (callState.ram.set 254 2) (by decide) (by decide) (by decide) (by decide)
    (by decide) (by decide)

/-! ### C6: COMPARE sets exactly one flag bit -/

lemma handle_cmp_spec (s : CPUState) (ra rb va vb : Int)
    (hreg : s.reg.length = 8)
    (h1 : pyGet s.ram (s.pc + 1) = some ra) (hva : pyGet s.reg ra = some va)
    (h2 : pyGet s.ram (s.pc + 2) = some rb) (hvb : pyGet s.reg rb = some vb) :
    handle_cmp s = .ok
      { s with
          reg := s.reg.set 6 (if va = vb then 1 else if vb < va then 2 else 4)
          output := s.output ++
            [.cmpDiag va vb
              (some (if va = vb then .EQ else if vb < va then .GT else .LT))]
          pc := s.pc + 3 } := by
  have hn : pyIdx s.reg.length (-2) = some 6 := by rw [hreg]; decide
  rcases lt_trichotomy va vb with hlt | heq | hgt
  · simp [handle_cmp, ram_read, reg_get, _set_equal_flag, reg_set,
      h1, h2, hva, hvb, pySet_of_pyIdx hn, hlt, hlt.ne, not_lt_of_lt hlt]
  · simp [handle_cmp, ram_read, reg_get, _set_equal_flag, reg_set,
      h1, h2, hva, hvb, pySet_of_pyIdx hn, heq]
  · simp [handle_cmp, ram_read, reg_get, _set_equal_flag, reg_set,
      h1, h2, hva, hvb, pySet_of_pyIdx hn, hgt, hgt.ne', not_lt_of_lt hgt]

/-- C6: after every successful execution of COMPARE on registers holding `va`
and `vb`, the flags register `reg[-2]` holds one of the three single-bit
values 1, 2, 4; bit 0 is set iff the values are equal, bit 1 iff the first is
greater, bit 2 iff the first is less, and never more than one of these bits
at once. -/
theorem cmp_sets_exactly_one_flag (s : CPUState) (ra rb va vb flags : Int)
    (hreg : s.reg.length = 8)
    (h1 : pyGet s.ram (s.pc + 1) = some ra) (hva : pyGet s.reg ra = some va)
    (h2 : pyGet s.ram (s.pc + 2) = some rb) (hvb : pyGet s.reg rb = some vb)
    (hflags : flags = if va = vb then 1 else if vb < va then 2 else 4) :
    (∃ s2, handle_cmp s = .ok s2 ∧ pyGet s2.reg (-2) = some flags)
    ∧ (flags = 1 ∨ flags = 2 ∨ flags = 4)
    ∧ (flags = 1 ↔ va = vb)
    ∧ (flags = 2 ↔ vb < va)
    ∧ (flags = 4 ↔ va < vb)
    ∧ (flags.toNat.testBit 0 ↔ va = vb)
    ∧ (flags.toNat.testBit 1 ↔ vb < va)
    ∧ (flags.toNat.testBit 2 ↔ va < vb)
    ∧ ¬(flags.toNat.testBit 0 ∧ flags.toNat.testBit 1)
    ∧ ¬(flags.toNat.testBit 0 ∧ flags.toNat.testBit 2)
    ∧ ¬(flags.toNat.testBit 1 ∧ flags.toNat.testBit 2) := by
  have hn : pyIdx s.reg.length (-2) = some 6 := by rw [hreg]; decide
  have hrw := handle_cmp_spec s ra rb va vb hreg h1 hva h2 hvb
  have hget : pyGet (s.reg.set 6 flags) (-2) = some flags := by
    rw [hflags]
    exact pyGet_set_of_pyIdx hn _
  refine ⟨⟨_, hrw, by rw [hflags] at hget ⊢; exact hget⟩, ?_⟩
  rcases lt_trichotomy va vb with hlt | heq | hgt
  · have hf : flags = 4 := by rw [hflags, if_neg hlt.ne, if_neg (lt_asymm hlt)]
    subst hf
    exact ⟨by norm_num,
      iff_of_false (by decide) hlt.ne,
      iff_of_false (by decide) (lt_asymm hlt),
      iff_of_true rfl hlt,
      iff_of_false (by decide) hlt.ne,
      iff_of_false (by decide) (lt_asymm hlt),
      iff_of_true (by decide) hlt,
      by decide, by decide, by decide⟩
  · have hf : flags = 1 := by rw [hflags, if_pos heq]
    subst hf
    exact ⟨by norm_num,
      iff_of_true rfl heq,
      iff_of_false (by decide) (by rw [heq]; exact lt_irrefl vb),
      iff_of_false (by decide) (by rw [heq]; exact lt_irrefl vb),
      iff_of_true (by decide) heq,
      iff_of_false (by decide) (by rw [heq]; exact lt_irrefl vb),
      iff_of_false (by decide) (by rw [heq]; exact lt_irrefl vb),
      by decide, by decide, by decide⟩
  · have hf : flags = 2 := by rw [hflags, if_neg hgt.ne', if_pos hgt]
    subst hf
    exact ⟨by norm_num,
      iff_of_false (by decide) hgt.ne',
      iff_of_true rfl hgt,
      iff_of_false (by decide) (lt_asymm hgt),
      iff_of_false (by decide) hgt.ne',
      iff_of_true (by decide) hgt,
      iff_of_false (by decide) (lt_asymm hgt),
      by decide, by decide, by decide⟩

/-- Witness for C6: comparing `reg[0] = 3` with `reg[1] = 3` at a concrete
state; the flag value is 1. -/
theorem cmp_sets_exactly_one_flag_witness :
    (∃ s2, handle_cmp
        { ram := [167, 0, 1]
        , reg := [3, 3, 0, 0, 0, 0, 0, 255]
        , pc := 0, running := true, output := [] } = .ok s2
      ∧ pyGet s2.reg (-2) = some 1)
    ∧ ((1 : Int) = 1 ∨ (1 : Int) = 2 ∨ (1 : Int) = 4)
    ∧ ((1 : Int) = 1 ↔ (3 : Int) = 3)
    ∧ ((1 : Int) = 2 ↔ (3 : Int) < 3)
    ∧ ((1 : Int) = 4 ↔ (3 : Int) < 3)
    ∧ ((1 : Int).toNat.testBit 0 ↔ (3 : Int) = 3)
    ∧ ((1 : Int).toNat.testBit 1 ↔ (3 : Int) < 3)
    ∧ ((1 : Int).toNat.testBit 2 ↔ (3 : Int) < 3)
    ∧ ¬((1 : Int).toNat.testBit 0 ∧ (1 : Int).toNat.testBit 1)
    ∧ ¬((1 : Int).toNat.testBit 0 ∧ (1 : Int).toNat.testBit 2)
    ∧ ¬((1 : Int).toNat.testBit 1 ∧ (1 : Int).toNat.testBit 2) :=
  cmp_sets_exactly_one_flag _ 0 1 3 3 1 (by decide) (by decide) (by decide)
    (by decide) (by decide) (by decide)

/-! ### C7: JEQ / JNE branch exactly on the equal flag -/

/-- C7: when the flags register holds one of the values the machine ever
stores there (0 initially; 1, 2 or 4 after a COMPARE — value 1, bit 0, means
the most recent COMPARE found equality), JUMP_IF_EQUAL sets the program
counter to the value held in the operand register exactly when the EQ bit is
set and otherwise advances the program counter by 2, and JUMP_IF_NOT_EQUAL
does the reverse. -/
theorem jeq_jne_branch_on_equal_flag (s : CPUState) (f r target : Int)
    (hf : pyGet s.reg (-2) = some f)
    (hfv : f = 0 ∨ f = 1 ∨ f = 2 ∨ f = 4)
    (hr : pyGet s.ram (s.pc + 1) = some r)
    (ht : pyGet s.reg r = some target) :
    handle_jeq s = .ok (if f.toNat.testBit 0 then { s with pc := target }
                        else { s with pc := s.pc + 2 })
    ∧ handle_jne s = .ok (if f.toNat.testBit 0 then { s with pc := s.pc + 2 }
                          else { s with pc := target }) := by
  rcases hfv with rfl | rfl | rfl | rfl
  · have hb : ((0 : Int).toNat.testBit 0) = false := by decide
    simp [handle_jeq, handle_jne, is_equal_flag, handle_jmp, reg_get, ram_read,
      hf, hr, ht, hb]
  · have hb : ((1 : Int).toNat.testBit 0) = true := by decide
    simp [handle_jeq, handle_jne, is_equal_flag, handle_jmp, reg_get, ram_read,
      hf, hr, ht, hb]
  · have hb : ((2 : Int).toNat.testBit 0) = false := by decide
    simp [handle_jeq, handle_jne, is_equal_flag, handle_jmp, reg_get, ram_read,
      hf, hr, ht, hb]
  · have hb : ((4 : Int).toNat.testBit 0) = false := by decide
    simp [handle_jeq, handle_jne, is_equal_flag, handle_jmp, reg_get, ram_read,
      hf, hr, ht, hb]

/-- A state whose flags register holds 1 (EQ) about to execute `JEQ 0` with
`reg[0] = 9`. -/
def jeqState : CPUState :=
  { ram := [85, 0]
  , reg := [9, 0, 0, 0, 0, 0, 1, 255]
  , pc := 0
  , running := true
  , output := [] }

/-- Witness for C7 at `jeqState`: with the EQ flag set, JEQ jumps to 9 and
JNE falls through to `pc = 2`. -/
theorem jeq_jne_branch_on_equal_flag_witness :
    handle_jeq jeqState =
      .ok (if (1 : Int).toNat.testBit 0 then { jeqState with pc := 9 }
           else { jeqState with pc := 0 + 2 })
    ∧ handle_jne jeqState =
      .ok (if (1 : Int).toNat.testBit 0 then { jeqState with pc := 0 + 2 }
           else { jeqState with pc := 9 }) :=
  jeq_jne_branch_on_equal_flag jeqState 1 0 9 (by decide) (by norm_num)
    (by decide) (by decide)

/-! ### C8: register writes are not truncated to 8 bits -/

/-- A state about to execute `LDI 0 300`: the loader parses binary literals of
any length, so an operand cell can hold a value ≥ 256 (here
`0b100101100 = 300`). -/
def ldiTruncState : CPUState :=
  { ram := [130, 0, 300]
  , reg := List.replicate 8 0
  , pc := 0
  , running := true
  , output := [] }

/-- C8 (counterexample): `LDI 0 300` stores `300` into register 0 as-is, and
reading it back yields `300`, not `300 % 256 = 44`: the claim that register
writes wrap to 8 bits is false on the code. -/
theorem ldi_no_truncation_counterexample :
    (match ldi ldiTruncState with
      | .ok s => pyGet s.reg 0
      | .error _ => none) = some 300
    ∧ (300 : Int) % 256 ≠ 300 := by
  decide

/-- C8 (amended): for every valid register index `r` in `[0, 8)` and every
value `v`, LDI stores `v` into register `r` untruncated, and reading register
`r` back yields exactly `v` — not `v mod 256`. -/
theorem ldi_set_get_exact (s : CPUState) (r v : Int)
    (hreg : s.reg.length = 8)
    (hr : pyGet s.ram (s.pc + 1) = some r) (hv : pyGet s.ram (s.pc + 2) = some v)
    (hr0 : 0 ≤ r) (hr8 : r < 8) :
    ldi s = .ok { s with reg := s.reg.set r.toNat v, pc := s.pc + 3 }
    ∧ pyGet (s.reg.set r.toNat v) r = some v := by
  have hn : pyIdx s.reg.length r = some r.toNat := by
    rw [hreg]
    unfold pyIdx
    rw [if_pos hr0, if_pos (by exact_mod_cast hr8)]
  exact ⟨by simp [ldi, ram_read, reg_set, hr, hv, pySet_of_pyIdx hn],
    pyGet_set_of_pyIdx hn v⟩

/-- Witness for C8's amended theorem at `ldiTruncState`: the stored and
re-read value is exactly 300. -/
theorem ldi_set_get_exact_witness :
    ldi ldiTruncState =
      .ok { ldiTruncState with reg := ldiTruncState.reg.set (Int.toNat 0) 300
                             , pc := 0 + 3 }
    ∧ pyGet (ldiTruncState.reg.set (Int.toNat 0) 300) 0 = some 300 :=
  ldi_set_get_exact ldiTruncState 0 300 (by decide) (by decide) (by decide)
    (by decide) (by decide)

/-! ### C9: the five-instruction demo program prints 17 and halts -/

/-- The state after loading
`LDI 0 8; LDI 1 9; ADD 0 1; PRN 0; HLT` at address 0 into a fresh CPU. -/
def addProgState : CPUState :=
  { initState with
      ram := [130, 0, 8, 130, 1, 9, 160, 0, 1, 71, 0, 1] ++ List.replicate 244 0 }

/-- C9: running the loaded five-instruction program executes each instruction
once; PRINT emits the value 17, and the HALT instruction then clears the
running flag, so the dispatch loop stops cleanly with no error.  (The per-cycle
trace lines are also visible in the output.) -/
theorem add_program_prints_17_and_halts :
    run 6 addProgState = .ok
      { addProgState with
          reg := [17, 9, 0, 0, 0, 0, 0, 255]
          pc := 12
          running := false
          output := [
            .traceLine 0 130 0 8 [0, 0, 0, 0, 0, 0, 0, 255],
            .traceLine 3 130 1 9 [8, 0, 0, 0, 0, 0, 0, 255],
            .traceLine 6 160 0 1 [8, 9, 0, 0, 0, 0, 0, 255],
            .traceLine 9 71 0 1 [17, 9, 0, 0, 0, 0, 0, 255],
            .printVal 17,
            .traceLine 11 1 0 0 [17, 9, 0, 0, 0, 0, 0, 255],
            .haltMsg] } := by
  rfl

/-! ### C10: a trace line precedes every executed handler; COMPARE prints a
diagnostic line -/

/-- C10: on every dispatch cycle whose fetched byte is a known opcode, the
loop body is exactly `handle_cmd` applied to the state with the trace line
(program counter, opcode byte, the two following bytes, and all 8 register
values) already appended to the output — the trace line is written
unconditionally, before the handler runs, in every run.  Moreover every
successful COMPARE additionally appends the diagnostic line with the two
compared values and the comparison result. -/
theorem trace_line_every_cycle (s : CPUState) (c b1 b2 : Int)
    (hc : pyGet s.ram s.pc = some c) (hin : inCmds c = true)
    (h1 : pyGet s.ram (s.pc + 1) = some b1) (h2 : pyGet s.ram (s.pc + 2) = some b2) :
    step s = handle_cmd
      { s with output := s.output ++ [.traceLine s.pc c b1 b2 s.reg] } c
    ∧ ∀ (t : CPUState) (ra rb va vb : Int), t.reg.length = 8 →
        pyGet t.ram (t.pc + 1) = some ra → pyGet t.reg ra = some va →
        pyGet t.ram (t.pc + 2) = some rb → pyGet t.reg rb = some vb →
        (match handle_cmp t with
          | .ok s2 => some s2.output
          | .error _ => none) =
          some (t.output ++ [.cmpDiag va vb
            (some (if va = vb then .EQ else if vb < va then .GT else .LT))]) := by
  constructor
  · simp [step, trace, ram_read, hc, hin, h1, h2]
  · intro t ra rb va vb hreg ht1 htva ht2 htvb
    rw [handle_cmp_spec t ra rb va vb hreg ht1 htva ht2 htvb]

/-- A state about to execute `CMP 0 1` with `reg[0] = 5`, `reg[1] = 7`. -/
def cmpTraceState : CPUState :=
  { ram := [167, 0, 1]
  , reg := [5, 7, 0, 0, 0, 0, 0, 255]
  , pc := 0
  , running := true
  , output := [] }

/-- Witness for C10 at `cmpTraceState`: the cycle's first output is the trace
line, and the COMPARE appends the diagnostic line `V1: 5, V2: 7, RES: LT`. -/
theorem trace_line_every_cycle_witness :
    step cmpTraceState = handle_cmd
      { cmpTraceState with
          output := [.traceLine 0 167 0 1 [5, 7, 0, 0, 0, 0, 0, 255]] } 167
    ∧ (match handle_cmp cmpTraceState with
        | .ok s2 => some s2.output
        | .error _ => none) = some [.cmpDiag 5 7 (some .LT)] := by
  have h := trace_line_every_cycle cmpTraceState 167 0 1 (by decide) (by decide)
    (by decide) (by decide)
  refine ⟨by simpa using h.1, ?_⟩
  have h2 := h.2 cmpTraceState 0 1 5 7 (by decide) (by decide) (by decide)
    (by decide) (by decide)
  simpa using h2

end LS8
